import Mathlib

/-!
Verification of the borgcube remote backup gateway.

This file gives a shallow embedding of the parts of the borgcube source that
the checked properties talk about: the capability-tier enumeration
(`borgcube/enum.py`), the per-entity advisory lock
(`LockableObject.lock` in `borgcube/backend/model.py`), the quota ledger
(`Repository.quota` setter, `Repository.new`/`_create`,
`User.quota_gb` setter via `AdminCommand._command_user_quota`), the storage
layer quota write (`Storage.set_new_quota` / `BorgRepo.set_new_quota_safe`
in `borgcube/backend/storage.py`), the remote command dispatch
(`RemoteCommand` in `borgcube/frontend/remote_command.py`) and the session
classifier (`Commandline._is_remote` in `borgcube/frontend/commandline.py`).

Python integers are modelled as `Int` (they are unbounded), process ids and
transaction counters as `Nat`, environments as association lists, filesystem
paths as lists of path segments.  Fallible code returns `Except`.
-/

namespace Borgcube

/-- Capability tiers, from `AuthorizedKeyType` in `borgcube/enum.py`. -/
inductive AuthorizedKeyType where
  | USER
  | USER_BACKUP
  | REPO_APPEND
  | REPO_RW
  | ADMIN_IMPERSONATE
deriving DecidableEq, Repr

/-- Audit-log operation kinds.  The `LogOperation` enumeration is imported by
`model.py` from `borgcube.enum` but its declaration is not present in the
source tree; the constructors are those referenced at the use sites in
`remote_command.py` and `model.py`. -/
inductive LogOperation where
  | CREATE_USER
  | DELETE_USER
  | CREATE_REPO
  | DELETE_REPO
  | SERVE_REPO_LOG
  | SERVE_REPO_BEGIN
  | SERVE_REPO_SUCCESS
  | SERVE_REPO_ABORT
  | SERVE_MODIFY_SUCCESS
  | SERVE_MODIFY_ABORT
deriving DecidableEq, Repr

/-! ## Lock manager (`LockableObject.lock`, model.py lines 79-105)

The context manager polls the in-memory `self.locked` field.  Within one
invocation that field is only written by the code itself (the loop never
re-reads it from the database), so its value during the poll loop is the
value observed on entry; the whole acquisition is a function of the initial
holder value, the caller's pid, the liveness oracle `psutil.pid_exists`, and
the timeout.  `sleep(5)` is counted rather than performed: the loop sleeps
while the elapsed time `5*k` is below `timeout_sec` and raises
`DatabaseObjectLockedError` at the first check with `5*k ≥ timeout_sec`. -/

/-- Outcome of one `with entity.lock(timeout_sec):` acquisition. -/
structure LockAcquireOutcome where
  /-- Flag that is `true` iff the acquisition raised `DatabaseObjectLockedError`. -/
  timedOut : Bool
  /-- The `recursive` flag set by the poll loop. -/
  recursive : Bool
  /-- Number of `sleep(5)` calls performed before yielding or raising. -/
  sleeps : Nat
  /-- Value of `self.locked` after the atomic claim block, i.e. the recorded
  holder while the caller's critical section runs (meaningful when the
  acquisition yielded). -/
  holderDuring : Nat
  /-- Value of `self.locked` after the `finally` release block. -/
  holderAfter : Nat
deriving DecidableEq, Repr

/-- Shallow embedding of `LockableObject.lock` (model.py lines 79-105).
`locked` is the holder field on entry (0 = free), `myPid` is `os.getpid()`,
`alive` is `psutil.pid_exists`, `timeoutSec` is `timeout_sec`. -/
def lockAcquire (locked myPid : Nat) (alive : Nat → Bool) (timeoutSec : Nat) :
    LockAcquireOutcome :=
  if locked ≠ 0 ∧ alive locked then
    if myPid = locked then
      -- recursive re-entry: loop breaks, atomic block re-writes myPid,
      -- release is a no-op
      { timedOut := false, recursive := true, sleeps := 0,
        holderDuring := myPid, holderAfter := myPid }
    else
      -- held by another live pid: the loop sleeps until 5*k ≥ timeout, then
      -- raises; the holder field is never touched
      { timedOut := true, recursive := false, sleeps := (timeoutSec + 4) / 5,
        holderDuring := locked, holderAfter := locked }
  else
    -- free, or held by a pid that no longer exists: the loop exits at once;
    -- the atomic block claims the lock only if it re-checks as free or own
    { timedOut := false, recursive := false, sleeps := 0,
      holderDuring := if locked = 0 ∨ myPid = locked then myPid else locked,
      holderAfter := 0 }

/-! ## Remote command dispatch (`RemoteCommand`, remote_command.py) -/

/-- A process environment, as the association list of its variables.
`envGet` is Python's `env.get(k)` / `k in env` on a dict with unique keys. -/
def envGet (env : List (String × String)) (k : String) : Option String :=
  (env.find? (fun p => p.1 = k)).map (fun p => p.2)

/-- Value of `RemoteCommandType.BORGCUBE_COMMAND_SHELL` from `borgcube/enum.py`. -/
def BORGCUBE_COMMAND_SHELL : String := "BORGCUBE_COMMAND_SHELL"

/-- Value of `RemoteCommandType.BORGCUBE_COMMAND_BORG_SERVE` from `borgcube/enum.py`. -/
def BORGCUBE_COMMAND_BORG_SERVE : String := "BORGCUBE_COMMAND_BORG_SERVE"

/-- The action selected by `RemoteCommand._parse_remote_command`. -/
inductive RCAction where
  | runShell
  | runBorg
deriving DecidableEq, Repr

/-- Errors raised on the remote-command path.  Constructors mirror the raise
sites in `remote_command.py`. -/
inductive RCErr where
  /-- Error "Connecting via user ssh key to run borg serve is not supported..." -/
  | shellKeyWithOriginalCommand
  /-- Error "You are trying to connect to borgcube shell with your repo key..." -/
  | serveKeyWithoutOriginalCommand
  /-- Error "You are only allowed to run borg serve!" -/
  | onlyBorgServeAllowed
  /-- Error "Not permitted to run command: ..." -/
  | notPermitted (cmd : String)
  /-- Error raised because `shlex.split(...)[1]` on a command with fewer than two words raises
  `IndexError`. -/
  | indexError
  /-- Error raised by `run()`: `CommandMissingBorgcubeEnvironmentVariableError` when no
  command argument was parsed. -/
  | missingSshCommand
  /-- Error "You are not permitted to connect to borgcube shell with your
  repository keys..." (`_run_shell`). -/
  | shellWrongKeyType
deriving DecidableEq, Repr

/-- Helper for `shlexWords`: accumulate characters of the current word
(reversed) and split at spaces. -/
def shlexWordsAux : List Char → List Char → List String
  | [], acc => if acc.isEmpty then [] else [String.mk acc.reverse]
  | c :: cs, acc =>
    if c = ' ' then
      if acc.isEmpty then shlexWordsAux cs []
      else String.mk acc.reverse :: shlexWordsAux cs []
    else shlexWordsAux cs (c :: acc)

/-- Whitespace word-split standing in for `shlex.split` (the inputs the code
inspects are plain space-separated words without quoting). -/
def shlexWords (s : String) : List String :=
  shlexWordsAux s.toList []

/-- Shallow embedding of `RemoteCommand._parse_remote_command`
(remote_command.py lines 87-106).  `cmd` is the positional `remote` argument,
`soc` is `self.env.get('SSH_ORIGINAL_COMMAND')`. -/
def parseRemoteCommand (cmd : Option String) (soc : Option String) :
    Except RCErr (Option RCAction) :=
  match cmd with
  | none => Except.ok none
  | some c =>
    if c = BORGCUBE_COMMAND_SHELL then
      match soc with
      | some _ => Except.error RCErr.shellKeyWithOriginalCommand
      | none => Except.ok (some RCAction.runShell)
    else if c = BORGCUBE_COMMAND_BORG_SERVE then
      match soc with
      | none => Except.error RCErr.serveKeyWithoutOriginalCommand
      | some s =>
        match (shlexWords s).get? 1 with
        | none => Except.error RCErr.indexError
        | some w =>
          if w = "serve" then Except.ok (some RCAction.runBorg)
          else Except.error RCErr.onlyBorgServeAllowed
    else Except.error (RCErr.notPermitted c)

/-- Storage paths (`Storage.user_path` / `Storage.repo_path`,
storage.py lines 109-113), as lists of path segments below the storage
root. -/
def userPath (userName : String) : List String :=
  ["backups", userName]

/-- Path from `Storage.repo_path`: `backups/<user>/<repo>`. -/
def repoPath (userName repoName : String) : List String :=
  ["backups", userName, repoName]

/-- Shallow embedding of `RemoteCommand._stripped_env`
(remote_command.py lines 36-41): the subprocess environment holds only the
`SSH_ORIGINAL_COMMAND` entry, and only when the session environment has
one. -/
def strippedEnv (env : List (String × String)) : List (String × String) :=
  match envGet env "SSH_ORIGINAL_COMMAND" with
  | some v => [("SSH_ORIGINAL_COMMAND", v)]
  | none => []

/-- The `Popen` call made by `_run_borg_command`: its argument vector,
working directory and environment. -/
structure SpawnRecord where
  argv : List String
  cwd : List String
  env : List (String × String)
deriving DecidableEq, Repr

/-- The relevant session state of a `RemoteCommand` instance after
`_parse_env`, plus the configuration values the dispatch reads. -/
structure Session where
  keyType : AuthorizedKeyType
  /-- the positional `remote` argument of the argument parser -/
  command : Option String
  /-- Value of `self.env`, the session environment as injected by the SSH transport -/
  env : List (String × String)
  userName : String
  repoName : String
  /-- Value of `self.repo.quota_gb` -/
  repoQuotaGb : Int
  /-- Value of `cfg['borg_executable']` -/
  borgExecutable : String
deriving DecidableEq, Repr

/-- The borg invocation list built by `_run_borg_command`
(remote_command.py lines 109-118): `--append-only` is appended iff the key
type is `REPO_APPEND`. -/
def borgServeArgv (s : Session) : List String :=
  [s.borgExecutable, "serve",
   "--restrict-to-path", String.intercalate "/" (repoPath s.userName s.repoName),
   "--storage-quota", toString s.repoQuotaGb ++ "G"] ++
  (if s.keyType = AuthorizedKeyType.REPO_APPEND then ["--append-only"] else [])

/-- The subprocess spawned by `_run_borg_command`
(remote_command.py lines 124-131): environment from `_stripped_env`, working
directory `self.user.path` (the owning user's storage directory). -/
def borgServeSpawn (s : Session) : SpawnRecord :=
  { argv := borgServeArgv s
  , cwd := userPath s.userName
  , env := strippedEnv s.env }

/-- What executing the selected action amounts to, at the granularity the
properties need: the serve path spawns a subprocess, the shell path hands
over to the interactive shell. -/
inductive ExecOutcome where
  | spawned (rec : SpawnRecord)
  | shellRun
deriving DecidableEq, Repr

/-- Shallow embedding of executing the dispatched action:
`_run_shell` (remote_command.py lines 148-153) rejects key types other than
`USER`/`USER_BACKUP`; `_run_borg_command` (lines 108-146) spawns the borg
subprocess with no key-type check at all. -/
def runAction (s : Session) : RCAction → Except RCErr ExecOutcome
  | RCAction.runShell =>
    if s.keyType = AuthorizedKeyType.USER ∨ s.keyType = AuthorizedKeyType.USER_BACKUP then
      Except.ok ExecOutcome.shellRun
    else
      Except.error RCErr.shellWrongKeyType
  | RCAction.runBorg => Except.ok (ExecOutcome.spawned (borgServeSpawn s))

/-- Shallow embedding of the full remote dispatch: `_parse_remote_command`
during argument parsing, then `RemoteCommand.run`
(remote_command.py lines 155-158), which fails when no command argument was
supplied and otherwise invokes the selected action. -/
def runRemoteCommand (s : Session) : Except RCErr ExecOutcome :=
  match parseRemoteCommand s.command (envGet s.env "SSH_ORIGINAL_COMMAND") with
  | Except.error e => Except.error e
  | Except.ok none => Except.error RCErr.missingSshCommand
  | Except.ok (some a) => runAction s a

/-! ## Serve audit entries (`_run_borg_command`, remote_command.py lines 120-143)

The pre/post transaction counters come from `Repository.transaction_id`
(model.py lines 368-370), which delegates to
`Storage.get_repo_transaction_id`.  Modelled from the spec: that method is
not defined anywhere in the source tree (`Storage` in storage.py has no such
method); §6 of the spec describes the probe as an external black-box query
returning "a monotonically increasing transaction counter" for a repository
path.  The counters are therefore abstract `Option Nat` inputs here, `none`
standing for a path that is not (yet) an initialized borg repository. -/

/-- Python truthiness of an optional integer: `None` and `0` are falsy.  This
is the test applied by `if transaction_id_before and new_transaction_id and
new_transaction_id > transaction_id_before:` in remote_command.py. -/
def pyTruthy (x : Option Nat) : Bool :=
  match x with
  | none => false
  | some n => n != 0

/-- The audit-log operations recorded by `_run_borg_command` after the
subprocess exits (remote_command.py lines 136-143), as a function of the
exit code and the two counter probes. -/
def serveExitLogs (returncode : Int) (tidBefore tidAfter : Option Nat) :
    List LogOperation :=
  if returncode = 0 then
    LogOperation.SERVE_REPO_SUCCESS ::
      (if pyTruthy tidBefore && pyTruthy tidAfter
          && decide (tidBefore.getD 0 < tidAfter.getD 0) then
        [LogOperation.SERVE_MODIFY_SUCCESS]
      else [])
  else
    LogOperation.SERVE_REPO_ABORT ::
      (if pyTruthy tidBefore && pyTruthy tidAfter
          && decide (tidBefore.getD 0 < tidAfter.getD 0) then
        [LogOperation.SERVE_MODIFY_ABORT]
      else [])

/-! ## Session classification (`Commandline`, commandline.py) and the start
of `RemoteCommand._parse_env` (remote_command.py lines 43-85) -/

/-- Value of `SHELL_REMOTE_VARIABLES` (commandline.py line 7). -/
def SHELL_REMOTE_VARIABLES : List String :=
  ["SSH_CONNECTION", "BORGCUBE_KEY_TYPE"]

/-- Environment-classification errors.  Constructors mirror the raise sites
in commandline.py and remote_command.py / exception.py. -/
inductive EnvErr where
  /-- Error "Inconsistent or incomplete environment.  Can't determine if running
  in a remote shell or not." -/
  | inconsistentEnv
  /-- Error `CommandMissingBorgcubeEnvironmentVariableError`: "...Missing
  Environment variable: env_var". -/
  | missingVar (name : String)
  /-- Error "Your SSH server does not set LOGNAME.  This is required." -/
  | noLogname
  /-- Error "Connected with wrong SSH user: expected ..." -/
  | wrongLogname
deriving DecidableEq, Repr

/-- How the invocation was classified. -/
inductive SessionClass where
  | localAdmin
  | remote
deriving DecidableEq, Repr

/-- Shallow embedding of `Commandline._is_remote` (commandline.py lines
19-35).  `argv0` is `commandline[0]`, `exe` is `cfg['borgcube_executable']`. -/
def isRemote (env : List (String × String)) (argv0 exe : String) :
    Except EnvErr Bool :=
  let is_remote := SHELL_REMOTE_VARIABLES.any (fun v => (envGet env v).isSome)
  let is_local := SHELL_REMOTE_VARIABLES.any (fun v => (envGet env v).isNone)
  if is_remote = is_local then Except.error EnvErr.inconsistentEnv
  else if (envGet env "SHELL").isNone then Except.error EnvErr.inconsistentEnv
  else if argv0 ≠ exe then Except.error EnvErr.inconsistentEnv
  else Except.ok is_remote

/-- Result of classifying a session and, on the remote path, parsing its
environment up to the first ledger access.  `ledgerQueries` counts the
database lookups performed before the outcome was reached
(`User.get_by_id` is the first one, inside `_parse_user`). -/
structure GatewayStart where
  outcome : Except EnvErr SessionClass
  ledgerQueries : Nat
deriving Repr

/-- Shallow embedding of the gateway start-up: `Commandline.__init__`
dispatches on `_is_remote`; a local invocation constructs `AdminCommand`
(whose `_parse_env` is `pass`); a remote invocation constructs
`RemoteCommand`, whose `_parse_env` parses the key type first (environment
only), then `_parse_user` checks `LOGNAME` against `cfg['username']` and
resolves `BORGCUBE_USER` with the first ledger query. -/
def classifySession (env : List (String × String)) (argv0 exe serviceUser : String) :
    GatewayStart :=
  match isRemote env argv0 exe with
  | Except.error e => { outcome := Except.error e, ledgerQueries := 0 }
  | Except.ok false => { outcome := Except.ok SessionClass.localAdmin, ledgerQueries := 0 }
  | Except.ok true =>
    match envGet env "BORGCUBE_KEY_TYPE" with
    | none =>
      { outcome := Except.error (EnvErr.missingVar "BORGCUBE_KEY_TYPE")
      , ledgerQueries := 0 }
    | some _ =>
      match envGet env "LOGNAME" with
      | none => { outcome := Except.error EnvErr.noLogname, ledgerQueries := 0 }
      | some logname =>
        if logname ≠ serviceUser then
          { outcome := Except.error EnvErr.wrongLogname, ledgerQueries := 0 }
        else
          match envGet env "BORGCUBE_USER" with
          | none =>
            { outcome := Except.error (EnvErr.missingVar "BORGCUBE_USER")
            , ledgerQueries := 0 }
          | some _ =>
            -- User.get_by_id: the first ledger query
            { outcome := Except.ok SessionClass.remote, ledgerQueries := 1 }

/-! ## Quota ledger (`User`/`Repository` in model.py, `Storage` in storage.py)

Quotas are byte counts, stored as Python integers (`Int` here).  The ledger
is the relevant projection of the two database tables. -/

/-- A row of the `user` table (model.py lines 108-114). -/
structure UserRec where
  id : Nat
  name : String
  quota : Int
  maxRepoCount : Nat
deriving DecidableEq, Repr

/-- A row of the `repository` table (model.py lines 232-238).  The `name`
column is declared `CharField(unique=True)`: the uniqueness constraint is on
the whole table, not per owner. -/
structure RepoRec where
  id : Nat
  name : String
  userId : Nat
  quota : Int
deriving DecidableEq, Repr

/-- The persistent ledger: the two tables. -/
structure Ledger where
  users : List UserRec
  repos : List RepoRec
deriving DecidableEq, Repr

/-- Lookup of `Repository.get_by_id` (model.py lines 314-319). -/
def findRepo (repos : List RepoRec) (rid : Nat) : Option RepoRec :=
  repos.find? (fun r => r.id = rid)

/-- Lookup of `User.get_by_id` (model.py lines 184-189). -/
def findUserById (users : List UserRec) (uid : Nat) : Option UserRec :=
  users.find? (fun u => u.id = uid)

/-- Lookup of `User.get_by_name` (model.py lines 177-182). -/
def findUserByName (users : List UserRec) (n : String) : Option UserRec :=
  users.find? (fun u => u.name = n)

/-- The quota sum looped up by `User.quota_allocated` (model.py lines
212-217) and, identically, the `combined_size` loop inside the
`Repository.quota` setter (model.py lines 330-333): the sum of the quotas of
the repositories owned by `uid`. -/
def quotaAllocated (repos : List RepoRec) (uid : Nat) : Int :=
  ((repos.filter (fun r => r.userId = uid)).map (fun r => r.quota)).sum

/-- Embedding of `self._quota = new_quota; self.save()`: the row update written by the
quota setter. -/
def updateRepoQuota (repos : List RepoRec) (rid : Nat) (q : Int) : List RepoRec :=
  repos.map (fun r => if r.id = rid then { r with quota := q } else r)

/-- Observable steps of one quota-setter invocation, for the locking
property: the setter never executes `with self.lock():` (there is no such
call in the `Repository.quota` setter, model.py lines 325-346), so
`ledgerLockAcquire` is never emitted. -/
inductive QEvent where
  /-- acquiring the entity's advisory ledger lock (`LockableObject.lock`) -/
  | ledgerLockAcquire
  /-- reading the repository's current usage via the storage probe
  (`Repository.quota_used` / `BorgRepo.quota_used`) -/
  | usageProbe
  /-- Step `BorgRepo.open_locked`: exclusive open of the borg repository inside
  `Storage.set_new_quota` -/
  | engineOpenExclusive
  /-- Step `self.save()`: committing the new quota value to the ledger -/
  | ledgerCommit
deriving DecidableEq, Repr

/-- Errors of the `Repository.quota` setter (model.py lines 325-346) and of
the storage step it calls. -/
inductive QuotaErr where
  /-- Error when `Repository.get_by_id` found nothing -/
  | repoNotFound
  /-- owner row missing -/
  | userNotFound
  /-- Error "Quota must be bigger than 0" -/
  | quotaNotPositive
  /-- Error "Proposed repo size would be too large to fit user quota.  Maximum
  size would be ...": reports `owner.quota - (combined_size - old_quota)` -/
  | repoTooLargeForUserQuota (maxSize : Int)
  /-- the rejection branch `if new_size < self.quota_used:` builds its
  message from `self.size_gb` — an attribute `Repository` does not have —
  so the interpolation raises `AttributeError` instead of the intended
  `DatabaseError` -/
  | attributeErrorSizeGb
  /-- Error when `BorgRepo.set_new_quota_safe` raised `StorageError` ("Smallest quota
  would be quota_used"), re-raised by the setter as `DatabaseError` -/
  | storageNewQuotaTooSmall (minSize : Int)
deriving DecidableEq, Repr

/-- Result of one `Repository.quota` setter invocation: the emitted event
trace, the ledger outcome, and the storage engine's own quota value
afterwards. -/
structure SetQuotaResult where
  trace : List QEvent
  result : Except QuotaErr Ledger
  engineQuota : Int
deriving Repr

/-- Shallow embedding of the `Repository.quota` setter (model.py lines
325-346) together with the storage step it calls
(`Storage.set_new_quota`, storage.py lines 132-138, and
`BorgRepo.set_new_quota_safe`, storage.py lines 74-82).

`usage` is the byte count returned by the external usage probe
(`BorgRepo.quota_used`), `hasBorg` is whether `Storage.get_borg_repo`
finds an initialized borg repository at the path, `engineQuota` is the
engine-side `storage_quota` config value.  The setter acquires no ledger
lock; `Storage.set_new_quota` silently does nothing when `usage >
new_quota`, and `set_new_quota_safe` raises when `usage = new_quota`
(it is only reached under `usage ≤ new_quota` and itself requires
`usage < new_quota`). -/
def setRepoQuota (L : Ledger) (rid : Nat) (newQuota usage : Int)
    (hasBorg : Bool) (engineQuota : Int) : SetQuotaResult :=
  match findRepo L.repos rid with
  | none => { trace := [], result := Except.error QuotaErr.repoNotFound
            , engineQuota := engineQuota }
  | some self =>
    match findUserById L.users self.userId with
    | none => { trace := [], result := Except.error QuotaErr.userNotFound
              , engineQuota := engineQuota }
    | some owner =>
      if newQuota < 1 then
        { trace := [], result := Except.error QuotaErr.quotaNotPositive
        , engineQuota := engineQuota }
      else
        let combined_size := quotaAllocated L.repos self.userId
        let new_size := combined_size - self.quota + newQuota
        if new_size > owner.quota then
          { trace := []
          , result := Except.error
              (QuotaErr.repoTooLargeForUserQuota
                (owner.quota - (combined_size - self.quota)))
          , engineQuota := engineQuota }
        else if new_size < usage then
          -- message interpolation reads the nonexistent self.size_gb
          { trace := [QEvent.usageProbe]
          , result := Except.error QuotaErr.attributeErrorSizeGb
          , engineQuota := engineQuota }
        else
          if hasBorg then
            if usage ≤ newQuota then
              if usage < newQuota then
                { trace := [QEvent.usageProbe, QEvent.engineOpenExclusive,
                            QEvent.usageProbe, QEvent.ledgerCommit]
                , result := Except.ok
                    { L with repos := updateRepoQuota L.repos rid newQuota }
                , engineQuota := newQuota }
              else
                { trace := [QEvent.usageProbe, QEvent.engineOpenExclusive,
                            QEvent.usageProbe]
                , result := Except.error (QuotaErr.storageNewQuotaTooSmall usage)
                , engineQuota := engineQuota }
            else
              -- usage > new_quota: Storage.set_new_quota skips the engine
              -- write silently and the setter still commits the ledger row
              { trace := [QEvent.usageProbe, QEvent.engineOpenExclusive,
                          QEvent.usageProbe, QEvent.ledgerCommit]
              , result := Except.ok
                  { L with repos := updateRepoQuota L.repos rid newQuota }
              , engineQuota := engineQuota }
          else
            { trace := [QEvent.usageProbe, QEvent.ledgerCommit]
            , result := Except.ok
                { L with repos := updateRepoQuota L.repos rid newQuota }
            , engineQuota := engineQuota }

/-- Errors of `AdminCommand._command_user_quota` (admin_command.py lines
130-139). -/
inductive AdminErr where
  /-- Error "User '...' does not exist" -/
  | userNotFound (name : String)
deriving DecidableEq, Repr

/-- Shallow embedding of `AdminCommand._command_user_quota`
(admin_command.py lines 130-139) with the `User.quota_gb` setter
(model.py lines 227-229): looks the user up by name and stores
`new_quota * 1000 * 1000 * 1000` with no validation of any kind. -/
def setUserQuotaGb (L : Ledger) (name : String) (newQuotaGb : Int) :
    Except AdminErr Ledger :=
  match findUserByName L.users name with
  | none => Except.error (AdminErr.userNotFound name)
  | some u =>
    Except.ok
      { L with users := L.users.map (fun v =>
          if v.id = u.id then
            { v with quota := newQuotaGb * 1000 * 1000 * 1000 }
          else v) }

/-- Errors of `Repository.new` / `Repository._create` (model.py lines
264-295). -/
inductive CreateErr where
  | userNotFound
  /-- Error "Repository name has to be 20 characters or less" -/
  | nameTooLong
  /-- Error "Too many repositories" -/
  | tooManyRepos
  /-- Error "Name may only contain these characters: [a-zA-Z0-9_]" -/
  | invalidName
  /-- Error because `Storage.create_repo` runs `mkdir` without `exist_ok`, which raises
  `FileExistsError` when this user already has a repository of that name -/
  | dirExists
  /-- the INSERT violates the table-wide `unique=True` constraint on the
  `name` column: `IntegrityError` -/
  | duplicateName
  /-- Error because `repo.quota_gb = quota_gb` failed; the transaction is rolled back -/
  | quotaErr (e : QuotaErr)
deriving DecidableEq, Repr

/-- The character class of `_name_regex = re.compile('^[a-zA-Z0-9_]+$')`
(model.py line 23). -/
def validNameChar (c : Char) : Bool :=
  c.isAlphanum || c = '_'

/-- Test for whether `_name_regex.match name` succeeds iff the name is a nonempty string of
`[a-zA-Z0-9_]` characters. -/
def validName (s : String) : Bool :=
  s.length > 0 && s.toList.all validNameChar

/-- Shallow embedding of `Repository.new` (model.py lines 264-276) and
`Repository._create` (lines 278-295): length check, owned-repository count
check, name-character check, storage directory creation, row INSERT (with
the table-wide unique `name` constraint and the `_quota` column default of
500), then the full `Repository.quota` setter run via
`repo.quota_gb = quota_gb` on the ledger that already holds the new row — a
freshly created directory is not yet a borg repository, so the setter sees
usage 0 and no engine quota.  A setter failure rolls the transaction back. -/
def createRepo (L : Ledger) (uid : Nat) (repoName : String) (quotaGb : Int)
    (newId : Nat) : Except CreateErr Ledger :=
  match findUserById L.users uid with
  | none => Except.error CreateErr.userNotFound
  | some user =>
    if repoName.length > 20 then Except.error CreateErr.nameTooLong
    else if (L.repos.filter (fun r => r.userId = uid)).length ≥ user.maxRepoCount then
      Except.error CreateErr.tooManyRepos
    else if ¬ validName repoName then Except.error CreateErr.invalidName
    else if L.repos.any (fun r => r.userId = uid && r.name = repoName) then
      Except.error CreateErr.dirExists
    else if L.repos.any (fun r => r.name = repoName) then
      Except.error CreateErr.duplicateName
    else
      match (setRepoQuota
          { L with repos := L.repos ++
              [{ id := newId, name := repoName, userId := uid, quota := 500 }] }
          newId (quotaGb * 1000 * 1000 * 1000) 0 false 0).result with
      | Except.error e => Except.error (CreateErr.quotaErr e)
      | Except.ok L2 => Except.ok L2

/-! ## Concrete states used by the closed theorems -/

/-- A remote session connecting with a plain user key (`BORGCUBE_KEY_TYPE`
tier USER) whose forced command is the borg-serve token and whose
`SSH_ORIGINAL_COMMAND` requests `borg serve`. -/
def serveSessionUserKey : Session :=
  { keyType := AuthorizedKeyType.USER
  , command := some BORGCUBE_COMMAND_BORG_SERVE
  , env := [("SSH_ORIGINAL_COMMAND", "borg serve"),
            ("SSH_CONNECTION", "198.51.100.7 51022 22"),
            ("BORGCUBE_KEY_TYPE", "1"),
            ("LOGNAME", "borgcube"),
            ("BORGCUBE_USER", "1"),
            ("SHELL", "/bin/sh")]
  , userName := "alice"
  , repoName := "repo1"
  , repoQuotaGb := 50
  , borgExecutable := "/usr/bin/borg" }

/-- A session environment that carries the SSH connection marker but no
`BORGCUBE_KEY_TYPE` variable. -/
def envMissingKeyType : List (String × String) :=
  [("SSH_CONNECTION", "198.51.100.7 51022 22"), ("SHELL", "/bin/bash")]

/-- One principal (quota 100 GB) with one repository (quota 30 GB). -/
def sampleLedgerA : Ledger :=
  { users := [{ id := 1, name := "alice", quota := 100000000000, maxRepoCount := 10 }]
  , repos := [{ id := 1, name := "repo1", userId := 1, quota := 30000000000 }] }

/-- One principal (quota 10 GB) with one repository allocated the full
10 GB. -/
def sampleLedgerB : Ledger :=
  { users := [{ id := 1, name := "alice", quota := 10000000000, maxRepoCount := 10 }]
  , repos := [{ id := 1, name := "repo1", userId := 1, quota := 10000000000 }] }

/-- One principal (quota 100 GB) with two repositories: the target `repo1`
(quota 30 GB) and a sibling `repo2` (quota 20 GB). -/
def sampleLedgerC : Ledger :=
  { users := [{ id := 1, name := "alice", quota := 100000000000, maxRepoCount := 10 }]
  , repos := [{ id := 1, name := "repo1", userId := 1, quota := 30000000000 },
              { id := 2, name := "repo2", userId := 1, quota := 20000000000 }] }

/-- Two principals; `alice` owns a repository named `shared`. -/
def twoUserLedger : Ledger :=
  { users := [{ id := 1, name := "alice", quota := 100000000000, maxRepoCount := 10 },
              { id := 2, name := "bob", quota := 100000000000, maxRepoCount := 10 }]
  , repos := [{ id := 1, name := "shared", userId := 1, quota := 30000000000 }] }

/-! ## Lock manager properties (claims C5 and C9) -/

/-- Claim C5, counterexample.  The claim states that whenever lock
acquisition yields to a caller, the caller's process id is the recorded
holder.  On an entity whose holder field carries the dead pid 7, a caller
with pid 42 is yielded to at once, yet the recorded holder is still 7 — the
atomic claim block re-checks `self.locked == 0 or os.getpid() ==
self.locked`, which is false for an abandoned holder, so the caller never
records itself. -/
theorem dead_holder_not_recorded_counterexample :
    (lockAcquire 7 42 (fun _ => false) 1800).timedOut = false ∧
    (lockAcquire 7 42 (fun _ => false) 1800).holderDuring = 7 ∧
    (lockAcquire 7 42 (fun _ => false) 1800).holderDuring ≠ 42 := by
  refine ⟨rfl, rfl, by decide⟩

/-- Claim C5, amended: when acquisition yields after finding the lock free,
or re-enters recursively, the caller's pid is the recorded holder and a
recursive release is a no-op; when it yields by reclaiming a lock whose
holder process is dead, the dead pid stays recorded for the whole critical
section (the caller never records itself) and the release still resets the
holder to zero. -/
theorem lock_holder_recording_cases (locked myPid : Nat) (alive : Nat → Bool)
    (timeoutSec : Nat) :
    (locked = 0 →
      (lockAcquire locked myPid alive timeoutSec).timedOut = false ∧
      (lockAcquire locked myPid alive timeoutSec).holderDuring = myPid ∧
      (lockAcquire locked myPid alive timeoutSec).holderAfter = 0) ∧
    (locked ≠ 0 → alive locked = true → myPid = locked →
      (lockAcquire locked myPid alive timeoutSec).timedOut = false ∧
      (lockAcquire locked myPid alive timeoutSec).recursive = true ∧
      (lockAcquire locked myPid alive timeoutSec).holderDuring = myPid ∧
      (lockAcquire locked myPid alive timeoutSec).holderAfter = myPid) ∧
    (locked ≠ 0 → alive locked = false →
      (lockAcquire locked myPid alive timeoutSec).timedOut = false ∧
      (lockAcquire locked myPid alive timeoutSec).recursive = false ∧
      (lockAcquire locked myPid alive timeoutSec).holderDuring =
        (if myPid = locked then myPid else locked) ∧
      (lockAcquire locked myPid alive timeoutSec).holderAfter = 0) := by
  refine ⟨fun h0 => ?_, fun hne hal heq => ?_, fun hne hal => ?_⟩
  · simp [lockAcquire, h0]
  · simp [lockAcquire, hne, hal, heq]
  · simp [lockAcquire, hne, hal]

/-- Witness for `lock_holder_recording_cases` at the free-lock input. -/
theorem lock_holder_recording_cases_witness :
    (lockAcquire 0 3 (fun _ => true) 10).timedOut = false ∧
    (lockAcquire 0 3 (fun _ => true) 10).holderDuring = 3 ∧
    (lockAcquire 0 3 (fun _ => true) 10).holderAfter = 0 :=
  (lock_holder_recording_cases 0 3 (fun _ => true) 10).1 rfl

/-- Claim C9: an acquisition that finds a non-zero holder whose process no
longer exists proceeds immediately — it performs no `sleep(5)` poll and
raises no timeout error (the poll loop condition `self.locked != 0 and
psutil.pid_exists(self.locked)` is false at once). -/
theorem dead_holder_reclaim_immediate (locked myPid : Nat) (alive : Nat → Bool)
    (timeoutSec : Nat) (hne : locked ≠ 0) (hdead : alive locked = false) :
    (lockAcquire locked myPid alive timeoutSec).timedOut = false ∧
    (lockAcquire locked myPid alive timeoutSec).sleeps = 0 := by
  simp [lockAcquire, hne, hdead]

/-- Witness for `dead_holder_reclaim_immediate`. -/
theorem dead_holder_reclaim_immediate_witness :
    (lockAcquire 9 100 (fun _ => false) 60).timedOut = false ∧
    (lockAcquire 9 100 (fun _ => false) 60).sleeps = 0 :=
  dead_holder_reclaim_immediate 9 100 (fun _ => false) 60 (by decide) rfl

/-! ## Serve dispatch and authorization (claims C1 and C7) -/

/-- Claim C1, counterexample.  The claim states that a serve invocation is
permitted only under REPO_APPEND or REPO_RW and fails with an authorization
error under any other tier, with no subprocess spawned.  A session whose
tier is USER but whose command token is the serve token and whose
`SSH_ORIGINAL_COMMAND` is `borg serve` is dispatched to `_run_borg_command`
and the subprocess is spawned: neither `_parse_remote_command` nor
`_run_borg_command` consults the key type on the serve path. -/
theorem serve_tier_unchecked_counterexample :
    serveSessionUserKey.keyType = AuthorizedKeyType.USER ∧
    runRemoteCommand serveSessionUserKey =
      Except.ok (ExecOutcome.spawned (borgServeSpawn serveSessionUserKey)) :=
  ⟨rfl, rfl⟩

/-- Claim C1, amended: the serve path is gated only by the command token and
the shape of `SSH_ORIGINAL_COMMAND` (its second word must be `serve`), never
by the capability tier — under every tier such a request spawns the borg
subprocess, the tier merely selecting the `--append-only` flag; the only
tier check is on the shell path, which admits USER and USER_BACKUP and
rejects the rest. -/
theorem serve_dispatch_ignores_tier (s : Session) (oc : String)
    (hcmd : s.command = some BORGCUBE_COMMAND_BORG_SERVE)
    (hsoc : envGet s.env "SSH_ORIGINAL_COMMAND" = some oc)
    (hserve : (shlexWords oc).get? 1 = some "serve") :
    runRemoteCommand s = Except.ok (ExecOutcome.spawned (borgServeSpawn s)) := by
  have hne : BORGCUBE_COMMAND_BORG_SERVE ≠ BORGCUBE_COMMAND_SHELL := by decide
  simp only [runRemoteCommand, parseRemoteCommand, hcmd, hsoc, hserve,
    if_neg hne, if_pos rfl, runAction]
  simp

/-- Witness for `serve_dispatch_ignores_tier` at the USER-tier session. -/
theorem serve_dispatch_ignores_tier_witness :
    runRemoteCommand serveSessionUserKey =
      Except.ok (ExecOutcome.spawned (borgServeSpawn serveSessionUserKey)) :=
  serve_dispatch_ignores_tier serveSessionUserKey "borg serve" rfl rfl rfl

/-- Claim C7, counterexample.  The claim states that the spawned subprocess
runs with its working directory set to the repository's storage path; the
`Popen` call passes `cwd=self.user.path`, the owning user's directory, which
for user `alice` and repository `repo1` is `backups/alice`, not
`backups/alice/repo1`. -/
theorem spawn_cwd_not_repo_path_counterexample :
    (borgServeSpawn serveSessionUserKey).cwd = userPath "alice" ∧
    (borgServeSpawn serveSessionUserKey).cwd ≠ repoPath "alice" "repo1" := by
  refine ⟨rfl, by decide⟩

/-- Claim C7, amended: the spawned subprocess inherits only the whitelisted
`SSH_ORIGINAL_COMMAND` variable (with the session's value, and nothing when
the session has none), but its working directory is the owning user's
storage path (`self.user.path`), the parent of the repository's storage
path, not the repository's path itself. -/
theorem spawn_env_whitelisted_cwd_user_path (s : Session) :
    ((borgServeSpawn s).env = [] ∧ envGet s.env "SSH_ORIGINAL_COMMAND" = none ∨
      ∃ v, envGet s.env "SSH_ORIGINAL_COMMAND" = some v ∧
        (borgServeSpawn s).env = [("SSH_ORIGINAL_COMMAND", v)]) ∧
    (borgServeSpawn s).cwd = userPath s.userName := by
  unfold borgServeSpawn strippedEnv
  cases h : envGet s.env "SSH_ORIGINAL_COMMAND" <;> simp [h]

/-! ## Serve exit logging (claim C6) -/

/-- Claim C6, counterexample.  The claim states that on exit code zero the
modification entry is recorded iff the post-invocation counter strictly
exceeds the pre-invocation one.  With a pre-invocation counter of 0 and a
post-invocation counter of 1 the strict-excess test holds, yet the code's
guard `transaction_id_before and new_transaction_id and ...` treats the
Python-falsy 0 as "no counter" and records only the plain success entry. -/
theorem serve_modify_log_zero_counter_counterexample :
    LogOperation.SERVE_REPO_SUCCESS ∈ serveExitLogs 0 (some 0) (some 1) ∧
    (0 : Nat) < 1 ∧
    LogOperation.SERVE_MODIFY_SUCCESS ∉ serveExitLogs 0 (some 0) (some 1) := by
  decide

/-- Claim C6, amended: on exit code zero a "serve success" entry is always
recorded, and a "serve success with modification" entry is recorded iff both
transaction counters are present and non-zero (Python-truthy) and the
post-invocation counter strictly exceeds the pre-invocation one. -/
theorem serve_exit_zero_logs (tidBefore tidAfter : Option Nat) :
    LogOperation.SERVE_REPO_SUCCESS ∈ serveExitLogs 0 tidBefore tidAfter ∧
    (LogOperation.SERVE_MODIFY_SUCCESS ∈ serveExitLogs 0 tidBefore tidAfter ↔
      pyTruthy tidBefore = true ∧ pyTruthy tidAfter = true ∧
      tidBefore.getD 0 < tidAfter.getD 0) := by
  cases hb : pyTruthy tidBefore <;> cases ha : pyTruthy tidAfter <;>
    by_cases hlt : tidBefore.getD 0 < tidAfter.getD 0 <;>
    simp [serveExitLogs, hb, ha, hlt]

/-! ## Session classification with a missing tier variable (claim C8) -/

/-- Claim C8, counterexample.  The claim states that an environment lacking
the capability-tier variable makes the gateway fail with an error naming
that exact variable.  With the SSH connection marker present and
`BORGCUBE_KEY_TYPE` absent, `Commandline._is_remote` raises the generic
"Inconsistent or incomplete environment" error instead — the variable-naming
error in `_parse_key_type` is never reached. -/
theorem missing_key_type_generic_error_counterexample :
    envGet envMissingKeyType "BORGCUBE_KEY_TYPE" = none ∧
    (classifySession envMissingKeyType "/usr/bin/borgcube" "/usr/bin/borgcube"
        "borgcube").outcome = Except.error EnvErr.inconsistentEnv ∧
    EnvErr.inconsistentEnv ≠ EnvErr.missingVar "BORGCUBE_KEY_TYPE" ∧
    (classifySession envMissingKeyType "/usr/bin/borgcube" "/usr/bin/borgcube"
        "borgcube").ledgerQueries = 0 := by
  refine ⟨rfl, rfl, by decide, rfl⟩

/-- Claim C8, amended: when the capability-tier variable is absent, the
gateway performs zero ledger queries before its classification outcome, and
that outcome is never the error naming the variable: with the SSH connection
marker present it is the generic inconsistent-environment error; otherwise
the invocation is classified as local or rejected with the same generic
error. -/
theorem missing_key_type_classification (env : List (String × String))
    (argv0 exe serviceUser : String)
    (hmiss : envGet env "BORGCUBE_KEY_TYPE" = none) :
    (classifySession env argv0 exe serviceUser).ledgerQueries = 0 ∧
    (classifySession env argv0 exe serviceUser).outcome ≠
      Except.error (EnvErr.missingVar "BORGCUBE_KEY_TYPE") ∧
    ((envGet env "SSH_CONNECTION").isSome →
      (classifySession env argv0 exe serviceUser).outcome =
        Except.error EnvErr.inconsistentEnv) := by
  cases hconn : envGet env "SSH_CONNECTION" with
  | some v =>
    simp [classifySession, isRemote, SHELL_REMOTE_VARIABLES, hconn, hmiss]
  | none =>
    cases hsh : envGet env "SHELL" with
    | none =>
      simp [classifySession, isRemote, SHELL_REMOTE_VARIABLES, hconn, hmiss, hsh]
    | some sh =>
      by_cases hargv : argv0 = exe <;>
        simp [classifySession, isRemote, SHELL_REMOTE_VARIABLES, hconn, hmiss,
          hsh, hargv]

/-! ## Arithmetic of the quota ledger -/

/-- Unfolding lemma: the allocated-quota sum over a cons cell. -/
theorem quotaAllocated_cons (r : RepoRec) (rs : List RepoRec) (uid : Nat) :
    quotaAllocated (r :: rs) uid =
      (if r.userId = uid then r.quota else 0) + quotaAllocated rs uid := by
  by_cases h : r.userId = uid <;> simp [quotaAllocated, List.filter_cons, h]

/-- Updating the quota of a row id that does not occur leaves the table
unchanged. -/
theorem updateRepoQuota_id_frozen (rs : List RepoRec) (rid : Nat) (q : Int)
    (h : ∀ r ∈ rs, r.id ≠ rid) : updateRepoQuota rs rid q = rs := by
  induction rs with
  | nil => rfl
  | cons r rs ih =>
    have h1 : r.id ≠ rid := h r (List.mem_cons_self r rs)
    have h2 : updateRepoQuota rs rid q = rs :=
      ih (fun x hx => h x (List.mem_cons_of_mem r hx))
    simp only [updateRepoQuota, List.map_cons, if_neg h1] at h2 ⊢
    rw [h2]

/-- Changing one repository's quota changes the owner's allocated sum by
the difference between the new and the old value. -/
theorem quotaAllocated_updateRepoQuota (repos : List RepoRec) (rid : Nat)
    (q : Int) (self : RepoRec)
    (hnd : (repos.map (fun r => r.id)).Nodup)
    (hfind : findRepo repos rid = some self) :
    quotaAllocated (updateRepoQuota repos rid q) self.userId =
      quotaAllocated repos self.userId - self.quota + q := by
  induction repos with
  | nil => simp [findRepo] at hfind
  | cons r rs ih =>
    rw [List.map_cons, List.nodup_cons] at hnd
    by_cases hr : r.id = rid
    · have hhead : findRepo (r :: rs) rid = some r := by
        unfold findRepo
        exact List.find?_cons_of_pos _ (by simp [hr])
      have hselfr : self = r := by
        rw [hfind] at hhead
        exact Option.some.inj hhead
      subst hselfr
      have htail : updateRepoQuota rs rid q = rs := by
        apply updateRepoQuota_id_frozen
        intro x hx hxeq
        exact hnd.1 (hr ▸ hxeq ▸ List.mem_map_of_mem (fun r => r.id) hx)
      rw [show updateRepoQuota (self :: rs) rid q
            = ({ self with quota := q }) :: updateRepoQuota rs rid q from by
          simp [updateRepoQuota, hr]]
      rw [htail, quotaAllocated_cons, quotaAllocated_cons]
      simp
      ring
    · have hfind' : findRepo rs rid = some self := by
        unfold findRepo at hfind ⊢
        rwa [List.find?_cons_of_neg _ (by simp [hr])] at hfind
      have hrec := ih hnd.2 hfind'
      rw [show updateRepoQuota (r :: rs) rid q
            = r :: updateRepoQuota rs rid q from by simp [updateRepoQuota, hr]]
      rw [quotaAllocated_cons, quotaAllocated_cons, hrec]
      ring

/-- Looking up a freshly appended row finds it when no earlier row carries
its id. -/
theorem findRepo_append_fresh (repos : List RepoRec) (x : RepoRec)
    (h : ∀ r ∈ repos, r.id ≠ x.id) :
    findRepo (repos ++ [x]) x.id = some x := by
  induction repos with
  | nil =>
    unfold findRepo
    simp only [List.nil_append]
    exact List.find?_cons_of_pos _ (by simp)
  | cons r rs ih =>
    have h1 : r.id ≠ x.id := h r (List.mem_cons_self r rs)
    unfold findRepo at ih ⊢
    rw [List.cons_append, List.find?_cons_of_neg _ (by simp [h1])]
    exact ih (fun a ha => h a (List.mem_cons_of_mem r ha))

/-- Appending a row with a fresh id preserves distinctness of the id
column. -/
theorem nodupIds_append_fresh (repos : List RepoRec) (x : RepoRec)
    (hnd : (repos.map (fun r => r.id)).Nodup)
    (hfresh : x.id ∉ repos.map (fun r => r.id)) :
    ((repos ++ [x]).map (fun r => r.id)).Nodup := by
  rw [List.map_append]
  refine List.Nodup.append hnd (by simp) ?_
  intro a ha hmem
  simp only [List.map_cons, List.map_nil, List.mem_singleton] at hmem
  subst hmem
  exact hfresh ha

/-- Quota updates do not touch the name column. -/
theorem updateRepoQuota_map_name (rs : List RepoRec) (rid : Nat) (q : Int) :
    (updateRepoQuota rs rid q).map (fun r => r.name) =
      rs.map (fun r => r.name) := by
  induction rs with
  | nil => rfl
  | cons r rs ih =>
    by_cases hr : r.id = rid <;>
      simp only [updateRepoQuota, List.map_cons, if_pos, if_neg, hr, ite_true,
        ite_false] <;>
      simp only [updateRepoQuota] at ih <;> rw [ih]

/-- Inversion of a successful `Repository.quota` setter invocation: the
users table is unchanged, the repos table got exactly the one quota update,
and the accepted value passed the owner-quota validation. -/
theorem setRepoQuota_ok_inv (L : Ledger) (rid : Nat) (newQuota usage : Int)
    (hasBorg : Bool) (engineQuota : Int) (L' : Ledger)
    (hok : (setRepoQuota L rid newQuota usage hasBorg engineQuota).result =
      Except.ok L') :
    L'.users = L.users ∧
    L'.repos = updateRepoQuota L.repos rid newQuota ∧
    ∃ self owner, findRepo L.repos rid = some self ∧
      findUserById L.users self.userId = some owner ∧
      quotaAllocated L.repos self.userId - self.quota + newQuota ≤ owner.quota := by
  unfold setRepoQuota at hok
  cases hself : findRepo L.repos rid with
  | none => simp only [hself] at hok; simp at hok
  | some self =>
    simp only [hself] at hok
    cases howner : findUserById L.users self.userId with
    | none => simp only [howner] at hok; simp at hok
    | some owner =>
      simp only [howner] at hok
      by_cases h1 : newQuota < 1
      · simp [h1] at hok
      by_cases h2 : quotaAllocated L.repos self.userId - self.quota + newQuota >
          owner.quota
      · simp [h1, h2] at hok
      by_cases h3 : quotaAllocated L.repos self.userId - self.quota + newQuota <
          usage
      · simp [h1, h2, h3] at hok
      have hL' : L' = { L with repos := updateRepoQuota L.repos rid newQuota } := by
        by_cases hb : hasBorg = true
        · by_cases h4 : usage ≤ newQuota
          · by_cases h5 : usage < newQuota
            · simp [h1, h2, h3, hb, h4, h5] at hok
              exact hok.symm
            · simp [h1, h2, h3, hb, h4, h5] at hok
          · simp [h1, h2, h3, hb, h4] at hok
            exact hok.symm
        · simp [h1, h2, h3, hb] at hok
          exact hok.symm
      subst hL'
      push_neg at h2
      exact ⟨rfl, rfl, self, owner, rfl, howner, h2⟩

/-- A successful repository-quota change leaves the owner's allocated sum
within the owner's quota. -/
theorem setRepoQuota_ok_alloc_le (L : Ledger) (rid : Nat) (newQuota usage : Int)
    (hasBorg : Bool) (engineQuota : Int) (self : RepoRec) (owner : UserRec)
    (L' : Ledger)
    (hnd : (L.repos.map (fun r => r.id)).Nodup)
    (hself : findRepo L.repos rid = some self)
    (howner : findUserById L.users self.userId = some owner)
    (hok : (setRepoQuota L rid newQuota usage hasBorg engineQuota).result =
      Except.ok L') :
    quotaAllocated L'.repos self.userId ≤ owner.quota := by
  obtain ⟨hu, hrepos, self', owner', hself', howner', hle⟩ :=
    setRepoQuota_ok_inv L rid newQuota usage hasBorg engineQuota L' hok
  rw [hself] at hself'
  obtain rfl := Option.some.inj hself'
  rw [howner] at howner'
  obtain rfl := Option.some.inj howner'
  rw [hrepos, quotaAllocated_updateRepoQuota L.repos rid newQuota self hnd hself]
  exact hle

/-- Inversion of a successful repository creation: it reduces to a
successful quota-setter run on the ledger extended with the new default row,
and the new name occurred nowhere in the table. -/
theorem createRepo_ok_inv (L : Ledger) (uid : Nat) (repoName : String)
    (quotaGb : Int) (newId : Nat) (user : UserRec) (L' : Ledger)
    (huser : findUserById L.users uid = some user)
    (hok : createRepo L uid repoName quotaGb newId = Except.ok L') :
    (setRepoQuota
        { L with repos := L.repos ++
            [{ id := newId, name := repoName, userId := uid, quota := 500 }] }
        newId (quotaGb * 1000 * 1000 * 1000) 0 false 0).result =
      Except.ok L' ∧
    (L.repos.any (fun r => r.name = repoName)) = false := by
  unfold createRepo at hok
  simp only [huser] at hok
  by_cases hlen : repoName.length > 20
  · simp [hlen] at hok
  by_cases hcount : (L.repos.filter (fun r => r.userId = uid)).length ≥
      user.maxRepoCount
  · simp [hlen, hcount] at hok
  by_cases hvn : validName repoName = true
  · by_cases hdir : (L.repos.any fun r => r.userId = uid && r.name = repoName) = true
    · simp [hlen, hcount, hvn, hdir] at hok
    · by_cases hdup : (L.repos.any fun r => r.name = repoName) = true
      · simp [hlen, hcount, hvn, hdir, hdup] at hok
      · rw [if_neg hlen, if_neg hcount, if_neg (not_not_intro hvn),
          if_neg hdir, if_neg hdup] at hok
        refine ⟨?_, by simpa using hdup⟩
        cases hres : (setRepoQuota
            { L with repos := L.repos ++
                [{ id := newId, name := repoName, userId := uid, quota := 500 }] }
            newId (quotaGb * 1000 * 1000 * 1000) 0 false 0).result with
        | error e =>
          rw [hres] at hok
          simp at hok
        | ok L2 =>
          rw [hres] at hok
          simp only [Except.ok.injEq] at hok
          rw [hok]
  · simp [hlen, hcount, hvn] at hok

/-- A successful repository creation leaves the owner's allocated sum within
the owner's quota. -/
theorem createRepo_ok_alloc_le (L : Ledger) (uid : Nat) (repoName : String)
    (quotaGb : Int) (newId : Nat) (user : UserRec) (L' : Ledger)
    (hnd : (L.repos.map (fun r => r.id)).Nodup)
    (hfresh : newId ∉ L.repos.map (fun r => r.id))
    (huser : findUserById L.users uid = some user)
    (hok : createRepo L uid repoName quotaGb newId = Except.ok L') :
    quotaAllocated L'.repos uid ≤ user.quota := by
  obtain ⟨hset, -⟩ := createRepo_ok_inv L uid repoName quotaGb newId user L' huser hok
  have hx : findRepo
      (L.repos ++ [{ id := newId, name := repoName, userId := uid, quota := 500 }])
      newId = some { id := newId, name := repoName, userId := uid, quota := 500 } := by
    refine findRepo_append_fresh L.repos _ (fun r hr heq => hfresh ?_)
    have hm : r.id ∈ List.map (fun r => r.id) L.repos :=
      List.mem_map_of_mem (fun r => r.id) hr
    rw [heq] at hm
    exact hm
  have hnd1 := nodupIds_append_fresh L.repos
    { id := newId, name := repoName, userId := uid, quota := 500 } hnd hfresh
  exact setRepoQuota_ok_alloc_le
    { L with repos := L.repos ++
        [{ id := newId, name := repoName, userId := uid, quota := 500 }] }
    newId (quotaGb * 1000 * 1000 * 1000) 0 false 0
    { id := newId, name := repoName, userId := uid, quota := 500 }
    user L' hnd1 hx huser hset

/-- Witness for `missing_key_type_classification` at the concrete
environment. -/
theorem missing_key_type_classification_witness :
    (classifySession envMissingKeyType "/usr/bin/borgcube" "/usr/bin/borgcube"
        "borgcube").ledgerQueries = 0 ∧
    (classifySession envMissingKeyType "/usr/bin/borgcube" "/usr/bin/borgcube"
        "borgcube").outcome ≠
      Except.error (EnvErr.missingVar "BORGCUBE_KEY_TYPE") ∧
    ((envGet envMissingKeyType "SSH_CONNECTION").isSome →
      (classifySession envMissingKeyType "/usr/bin/borgcube" "/usr/bin/borgcube"
          "borgcube").outcome = Except.error EnvErr.inconsistentEnv) :=
  missing_key_type_classification envMissingKeyType "/usr/bin/borgcube"
    "/usr/bin/borgcube" "borgcube" rfl

/-! ## Quota invariants (claims C2, C3, C4) -/

/-- Claim C2, counterexample.  The claim states the allocated-sum invariant
holds after every accepted quota mutation, including principal quota
changes.  The admin quota command accepts setting `alice`'s quota to 5 GB
while her single repository keeps its 10 GB quota, so the allocated sum
(10 GB) exceeds the principal's new quota (5 GB): the `User.quota_gb` setter
performs no validation. -/
theorem principal_quota_change_breaks_invariant :
    setUserQuotaGb sampleLedgerB "alice" 5 =
      Except.ok
        { users := [{ id := 1, name := "alice", quota := 5000000000,
                      maxRepoCount := 10 }]
        , repos := sampleLedgerB.repos } ∧
    ¬ (quotaAllocated sampleLedgerB.repos 1 ≤ 5000000000) := by
  refine ⟨rfl, by decide⟩

/-- Claim C2, amended: the allocated-sum invariant is (re)established by the
two repository-side mutations — an accepted repository quota change and an
accepted repository creation both leave the owner's allocated sum within the
owner's quota — while a principal quota change is accepted without any
validation and can violate it. -/
theorem repo_quota_mutations_preserve_principal_quota :
    (∀ (L : Ledger) (rid : Nat) (newQuota usage : Int) (hasBorg : Bool)
       (engineQuota : Int) (self : RepoRec) (owner : UserRec) (L' : Ledger),
       (L.repos.map (fun r => r.id)).Nodup →
       findRepo L.repos rid = some self →
       findUserById L.users self.userId = some owner →
       (setRepoQuota L rid newQuota usage hasBorg engineQuota).result =
         Except.ok L' →
       quotaAllocated L'.repos self.userId ≤ owner.quota) ∧
    (∀ (L : Ledger) (uid : Nat) (repoName : String) (quotaGb : Int)
       (newId : Nat) (user : UserRec) (L' : Ledger),
       (L.repos.map (fun r => r.id)).Nodup →
       newId ∉ L.repos.map (fun r => r.id) →
       findUserById L.users uid = some user →
       createRepo L uid repoName quotaGb newId = Except.ok L' →
       quotaAllocated L'.repos uid ≤ user.quota) :=
  ⟨fun L rid newQuota usage hasBorg engineQuota self owner L' hnd hself howner hok =>
      setRepoQuota_ok_alloc_le L rid newQuota usage hasBorg engineQuota self owner
        L' hnd hself howner hok,
   fun L uid repoName quotaGb newId user L' hnd hfresh huser hok =>
      createRepo_ok_alloc_le L uid repoName quotaGb newId user L' hnd hfresh
        huser hok⟩

/-- Witness for `repo_quota_mutations_preserve_principal_quota`: an accepted
quota change of `repo1` from 30 GB to 50 GB under a 100 GB principal
quota. -/
theorem repo_quota_mutations_preserve_principal_quota_witness :
    quotaAllocated [{ id := 1, name := "repo1", userId := 1,
                      quota := 50000000000 }] 1 ≤ 100000000000 :=
  repo_quota_mutations_preserve_principal_quota.1 sampleLedgerA 1
    50000000000 0 false 0
    { id := 1, name := "repo1", userId := 1, quota := 30000000000 }
    { id := 1, name := "alice", quota := 100000000000, maxRepoCount := 10 }
    { users := sampleLedgerA.users
    , repos := [{ id := 1, name := "repo1", userId := 1, quota := 50000000000 }] }
    (by decide) rfl rfl rfl

/-- Claim C3: evaluation of the quota setter at states whose usage exceeds
the proposed quota.  With a sibling repository padding the sum, the setter
compares `new_size` (the sibling-summed total) instead of `new_quota`
against the usage, so a 5 GB quota is accepted and committed for a
repository using 10 GB (with the engine-side quota silently left at its old
value); without a sibling the rejection branch is taken, but building its
message reads the nonexistent attribute `self.size_gb`, so it raises
`AttributeError` instead of reporting the usage as the minimum. -/
theorem repo_quota_below_usage_eval :
    (setRepoQuota sampleLedgerC 1 5000000000 10000000000 true 30000000000).result =
      Except.ok
        { users := sampleLedgerC.users
        , repos := [{ id := 1, name := "repo1", userId := 1, quota := 5000000000 },
                    { id := 2, name := "repo2", userId := 1, quota := 20000000000 }] } ∧
    (5000000000 : Int) < 10000000000 ∧
    (setRepoQuota sampleLedgerC 1 5000000000 10000000000 true 30000000000).engineQuota =
      30000000000 ∧
    (setRepoQuota sampleLedgerA 1 5000000000 10000000000 true 30000000000).result =
      Except.error QuotaErr.attributeErrorSizeGb := by
  refine ⟨rfl, by decide, rfl, rfl⟩

/-- Claim C4, counterexample.  The claim states every quota update first
acquires the repository's ledger lock.  A concrete accepted update emits the
usage query and the ledger commit but no ledger-lock acquisition: the
`Repository.quota` setter contains no `with self.lock():` block. -/
theorem quota_setter_no_lock_counterexample :
    (setRepoQuota sampleLedgerA 1 50000000000 0 false 0).trace =
      [QEvent.usageProbe, QEvent.ledgerCommit] ∧
    QEvent.ledgerLockAcquire ∉ (setRepoQuota sampleLedgerA 1 50000000000 0 false 0).trace ∧
    (setRepoQuota sampleLedgerA 1 50000000000 0 false 0).result =
      Except.ok
        { users := sampleLedgerA.users
        , repos := [{ id := 1, name := "repo1", userId := 1, quota := 50000000000 }] } := by
  refine ⟨rfl, by decide, rfl⟩

/-- Claim C4, amended: the repository-quota update never acquires the
ledger's advisory lock — the usage query, the sibling validation and the
commit all run without it; the only exclusivity on the accept path is the
storage engine's own exclusive open during the engine-quota write. -/
theorem quota_setter_never_acquires_ledger_lock (L : Ledger) (rid : Nat)
    (newQuota usage : Int) (hasBorg : Bool) (engineQuota : Int) :
    QEvent.ledgerLockAcquire ∉
      (setRepoQuota L rid newQuota usage hasBorg engineQuota).trace := by
  cases hfr : findRepo L.repos rid with
  | none => simp [setRepoQuota, hfr]
  | some self =>
    cases hfu : findUserById L.users self.userId with
    | none => simp [setRepoQuota, hfr, hfu]
    | some owner =>
      by_cases h1 : newQuota < 1
      · simp [setRepoQuota, hfr, hfu, h1]
      · by_cases h2 : quotaAllocated L.repos self.userId - self.quota + newQuota >
            owner.quota
        · simp [setRepoQuota, hfr, hfu, h1, h2]
        · by_cases h3 : quotaAllocated L.repos self.userId - self.quota + newQuota <
              usage
          · simp [setRepoQuota, hfr, hfu, h1, h2, h3]
          · by_cases hb : hasBorg = true
            · by_cases h4 : usage ≤ newQuota
              · by_cases h5 : usage < newQuota
                · simp [setRepoQuota, hfr, hfu, h1, h2, h3, hb, h4, h5]
                · simp [setRepoQuota, hfr, hfu, h1, h2, h3, hb, h4, h5]
              · simp [setRepoQuota, hfr, hfu, h1, h2, h3, hb, h4]
            · simp [setRepoQuota, hfr, hfu, h1, h2, h3, hb]

/-! ## Table-wide uniqueness of repository names (claim C10) -/

/-- Claim C10: the `name` column of the repository table is unique across
the whole table, so creating a repository whose name matches any existing
repository — of any principal — fails, and a successful creation preserves
distinctness of all repository names. -/
theorem repo_name_unique_table_wide :
    (∀ (L : Ledger) (uid : Nat) (repoName : String) (quotaGb : Int)
       (newId : Nat) (r : RepoRec), r ∈ L.repos → r.name = repoName →
       (createRepo L uid repoName quotaGb newId).isOk = false) ∧
    (∀ (L : Ledger) (uid : Nat) (repoName : String) (quotaGb : Int)
       (newId : Nat) (L' : Ledger),
       (L.repos.map (fun r => r.name)).Nodup →
       createRepo L uid repoName quotaGb newId = Except.ok L' →
       (L'.repos.map (fun r => r.name)).Nodup) := by
  constructor
  · intro L uid repoName quotaGb newId r hr hname
    cases hc : createRepo L uid repoName quotaGb newId with
    | error e => rfl
    | ok L' =>
      exfalso
      cases huser : findUserById L.users uid with
      | none =>
        unfold createRepo at hc
        simp only [huser] at hc
        simp at hc
      | some user =>
        obtain ⟨-, hdup⟩ := createRepo_ok_inv L uid repoName quotaGb newId user
          L' huser hc
        have hany : L.repos.any (fun x => x.name = repoName) = true :=
          List.any_eq_true.mpr ⟨r, hr, by simp [hname]⟩
        rw [hdup] at hany
        exact Bool.false_ne_true hany
  · intro L uid repoName quotaGb newId L' hnodup hok
    cases huser : findUserById L.users uid with
    | none =>
      unfold createRepo at hok
      simp only [huser] at hok
      simp at hok
    | some user =>
      obtain ⟨hset, hdup⟩ := createRepo_ok_inv L uid repoName quotaGb newId user
        L' huser hok
      obtain ⟨-, hrepos, -⟩ := setRepoQuota_ok_inv _ _ _ _ _ _ _ hset
      rw [hrepos, updateRepoQuota_map_name, List.map_append]
      have hnot : repoName ∉ L.repos.map (fun r => r.name) := by
        intro hmem
        obtain ⟨x, hx, hxn⟩ := List.mem_map.mp hmem
        have hany : L.repos.any (fun x => x.name = repoName) = true :=
          List.any_eq_true.mpr ⟨x, hx, by simp [hxn]⟩
        rw [hdup] at hany
        exact Bool.false_ne_true hany
      refine List.Nodup.append hnodup (by simp) ?_
      intro a ha hmem
      simp only [List.map_cons, List.map_nil, List.mem_singleton] at hmem
      subst hmem
      exact hnot ha

/-- Witness for `repo_name_unique_table_wide`: `bob` cannot create a
repository named `shared` because `alice` already owns one of that name. -/
theorem repo_name_unique_table_wide_witness :
    (createRepo twoUserLedger 2 "shared" 1 99).isOk = false :=
  repo_name_unique_table_wide.1 twoUserLedger 2 "shared" 1 99
    { id := 1, name := "shared", userId := 1, quota := 30000000000 }
    (by decide) rfl

end Borgcube
